import Mathlib

/-!
Shallow embedding of the HomeKit streaming-producer client
(`pkg/homekit/client.go`) from fuadarradhi/go2rtc, together with theorems
settling the frozen claims about it.

External collaborators (the HAP accessory connection, the SRTP transport
registry, the camera stream-open negotiation, randomness and the wall
clock) are represented as explicit environment records supplying the
results of each external call, following the collaborator contracts the
spec fixes for them.  The client's own control flow, branching and state
updates are translated line by line from `client.go`.
-/

set_option autoImplicit false

namespace Homekit

/-- GoResult models the outcome of a Go function call as observed by the
caller: a normal value, an error return, or a runtime panic (nil pointer
dereference or index out of range). -/
inductive GoResult (α : Type) where
  | ok (a : α)
  | err (msg : String)
  | panicked
deriving DecidableEq, Repr

/-- RtpPacket models the fields of `rtp.Packet` the client reads or writes:
the 32-bit header timestamp and the payload bytes. -/
structure RtpPacket where
  timestamp : Nat
  payload : List Nat
deriving DecidableEq, Repr

instance : Inhabited RtpPacket := ⟨⟨0, []⟩⟩

/-- Codec models `core.Codec` as the client uses it: its name and its kind.
The kind-from-name computation lives in `pkg/core` (outside src); per the
collaborator contract the producer base supplies tracks with codec and
kind, so the kind is carried as a field. -/
structure Codec where
  name : String
  kind : String
deriving DecidableEq, Repr

/-- Receiver models `core.Receiver`: the generic track the client writes
packets into.  Only its codec is inspected by the client. -/
structure Receiver where
  codec : Codec
deriving DecidableEq, Repr

/-- Modelled from the spec: `core.CodecJPEG`, the still-image codec name
constant (`pkg/core` is outside src); only equality with a receiver codec
name is used. -/
def CodecJPEG : String := "JPEG"

/-- Modelled from the spec: `core.KindVideo` (`pkg/core` is outside src). -/
def KindVideo : String := "video"

/-- Modelled from the spec: `core.KindAudio` (`pkg/core` is outside src). -/
def KindAudio : String := "audio"

/-- CodecParams stands for one advertised codec variant inside a
capability descriptor (`camera.VideoCodecConfig` and the audio analogue).
The client only selects variant 0 and passes it on opaquely, so the
variant is abstract. -/
structure CodecParams where
  id : Nat
deriving DecidableEq, Repr

/-- StreamConfig models `camera.SupportedVideoStreamConfig` and
`camera.SupportedAudioStreamConfig`: the client only ever reads the
`Codecs` list of the decoded descriptor. -/
structure StreamConfig where
  codecs : List CodecParams
deriving DecidableEq, Repr

/-- Media is the generic media representation, one per direction. -/
inductive Media where
  | video (codecs : List CodecParams)
  | audio (codecs : List CodecParams)
deriving DecidableEq, Repr

/-- Modelled from the spec: `videoToMedia` converts the video capability
descriptor's codec list into one generic media (the conversion body lives
in `pkg/homekit` outside src; no claim depends on its internals, only on
which descriptor it consumes). -/
def videoToMedia (codecs : List CodecParams) : Media := .video codecs

/-- Modelled from the spec: `audioToMedia`, audio analogue of
`videoToMedia`. -/
def audioToMedia (codecs : List CodecParams) : Media := .audio codecs

/-- Endpoint models `srtp.Endpoint` as built by `Client.srtpEndpoint`:
local address, 16-bit port, master key and salt bytes, 32-bit SSRC. -/
structure Endpoint where
  addr : String
  port : Nat
  masterKey : List Nat
  masterSalt : List Nat
  ssrc : Nat
deriving DecidableEq, Repr

/-- HandlerSpec names the three inbound-packet closures `Start` can
install as a session's `OnReadRTP`; `runHandler` gives their semantics. -/
inductive HandlerSpec where
  | videoLive
  | audioPlain
  | audioLive
deriving DecidableEq, Repr

/-- Session models `srtp.Session` as the client touches it: the local
endpoint, the received-byte counter, the installed inbound handler, and an
identity (standing for the Go pointer identity the registry compares). -/
structure Session where
  id : Nat
  localEp : Endpoint
  recv : Nat
  onReadRTP : Option HandlerSpec
deriving DecidableEq, Repr

/-- ClientState models the mutable fields of `Client` plus the transport
registry the client's `srtp.Server` holds.  Go nil-able slices and
pointers become `Option`; `nextId` is the allocator for fresh session
identities (fresh Go pointers are never already in the registry). -/
structure ClientState where
  medias : Option (List Media)
  receivers : Option (List Receiver)
  videoConfig : StreamConfig
  audioConfig : StreamConfig
  videoSession : Option Session
  audioSession : Option Session
  registry : List Nat
  nextId : Nat
deriving DecidableEq, Repr

/-- Characteristic models an accessory characteristic: the only operation
used is `ReadTLV8`, whose outcome the environment fixes. -/
structure Characteristic where
  readTLV8 : GoResult StreamConfig
deriving DecidableEq, Repr

/-- Accessory models the first accessory description as `GetMedias` uses
it: the two capability-characteristic lookups (`GetCharacter` with the
supported-video rsp. supported-audio stream-configuration type). -/
structure Accessory where
  videoChar : Option Characteristic
  audioChar : Option Characteristic
deriving DecidableEq, Repr

/-- HapEnv fixes the accessory-connection answers `GetMedias` observes. -/
structure HapEnv where
  firstAccessory : GoResult Accessory
deriving DecidableEq, Repr

/-- getMedias embeds `Client.GetMedias`: return the cached list if set;
otherwise read the first accessory, look up and decode the video then the
audio capability characteristic, failing (returning nil) at the first
absent characteristic or failed decode, and only on full success build and
cache the two-media list.  Decoded descriptors are written into the client
fields at the point `ReadTLV8(&c.videoConfig)` rsp. `ReadTLV8(&c.audioConfig)`
succeeds; a failed decode is modelled as leaving the field unchanged. -/
def getMedias (env : HapEnv) (c : ClientState) : Option (List Media) × ClientState :=
  match c.medias with
  | some m => (some m, c)
  | none =>
    match env.firstAccessory with
    | .ok acc =>
      match acc.videoChar with
      | some ch =>
        match ch.readTLV8 with
        | .ok vc =>
          let c1 := { c with videoConfig := vc }
          match acc.audioChar with
          | some ch2 =>
            match ch2.readTLV8 with
            | .ok ac =>
              let c2 := { c1 with audioConfig := ac }
              let m := [videoToMedia vc.codecs, audioToMedia ac.codecs]
              (some m, { c2 with medias := some m })
            | _ => (none, c1)
          | none => (none, c1)
        | _ => (none, c)
      | none => (none, c)
    | _ => (none, c)

/-- Info models `core.Info` as filled by `Client.MarshalJSON`. -/
structure Info where
  type : String
  url : String
  medias : Option (List Media)
  receivers : Option (List Receiver)
  recv : Nat
deriving DecidableEq, Repr

/-- marshalJSON embeds `Client.MarshalJSON`: it reads
`c.videoSession.Recv + c.audioSession.Recv` unconditionally, so a nil
video or audio session pointer is a nil dereference, i.e. a panic. -/
def marshalJSON (url : String) (c : ClientState) : GoResult Info :=
  match c.videoSession, c.audioSession with
  | some vs, some sa =>
    .ok { type := "HomeKit active producer", url := url,
          medias := c.medias, receivers := c.receivers,
          recv := vs.recv + sa.recv }
  | _, _ => .panicked

/-- trackByKind embeds `Client.trackByKind`: first receiver whose codec
kind matches, or none. -/
def trackByKind (receivers : List Receiver) (kind : String) : Option Receiver :=
  receivers.find? fun r => r.codec.kind == kind

/-- NegotiatedCodec stands for the narrowed codec descriptor produced by
`trackToVideo` / `trackToAudio`. -/
structure NegotiatedCodec where
  track : Option Receiver
  params : CodecParams
deriving DecidableEq, Repr

/-- Modelled from the spec: `trackToVideo` narrows the chosen track and
the first advertised codec variant to the negotiated codec (the body lives
in `pkg/homekit` outside src); kept as a free pairing, since no claim
depends on the narrowing itself, only on which arguments reach it. -/
def trackToVideo (track : Option Receiver) (params : CodecParams) : NegotiatedCodec :=
  ⟨track, params⟩

/-- Modelled from the spec: `trackToAudio`, audio analogue of
`trackToVideo`. -/
def trackToAudio (track : Option Receiver) (params : CodecParams) : NegotiatedCodec :=
  ⟨track, params⟩

/-- StartEnv fixes every external answer observed during `Start`: the
local IP and registry port, the random strings and 32-bit values
(`core.RandString` and `rand.Uint32` live outside src and are modelled,
per the spec, as streams indexed by call number), the stream-open result,
the MJPEG image fetches and the 90 kHz clock reads. -/
structure StartEnv where
  localIP : String
  port : Nat
  randStrings : Nat → Nat → List Nat
  randU32 : Nat → Nat
  newStream : GoResult Nat
  images : Nat → Except String (List Nat)
  now90000 : Nat → Nat

/-- srtpEndpoint embeds `Client.srtpEndpoint` for the k-th endpoint built
in one `Start`: local IP, registry port truncated to 16 bits, a fresh
16-byte master key, a fresh 14-byte master salt, a fresh 32-bit SSRC. -/
def srtpEndpoint (env : StartEnv) (k : Nat) : Endpoint :=
  { addr := env.localIP
    port := env.port % 2 ^ 16
    masterKey := env.randStrings (2 * k) 16
    masterSalt := env.randStrings (2 * k + 1) 14
    ssrc := env.randU32 k }

/-- mjpegLoop embeds the loop body of `Client.startMJPEG`, fuel-bounded:
`(some e, ps)` means the loop returned error `e` after writing packets
`ps`; `(none, ps)` means the loop was still running when the fuel ran out
(it never exits on success).  `i` counts the image fetches made so far. -/
def mjpegLoop (env : StartEnv) : Nat → Nat → Option String × List RtpPacket
  | 0, _ => (none, [])
  | fuel + 1, i =>
    match env.images i with
    | .error e => (some e, [])
    | .ok b =>
      let p : RtpPacket := { timestamp := env.now90000 i, payload := b }
      let r := mjpegLoop env fuel (i + 1)
      (r.1, p :: r.2)

/-- start embeds `Client.Start`.  The first component is `none` while the
call has not returned (the MJPEG loop still polling), otherwise the Go
return; the second is the client state as mutated by the call; the third
is the list of packets written to the first receiver on the MJPEG path.
Nil receivers return the "producer without tracks" error; a non-nil empty
receiver slice panics at `c.Receivers[0]`; indexing an empty advertised
codec list (`c.videoConfig.Codecs[0]`) panics likewise.  Both sessions are
assigned to the client before the stream open, registered with the
registry only after the open succeeds, and only then are the inbound
handlers wired: with a video track present the video handler resets the
deadline and the audio handler (installed only when an audio track also
exists) merely writes; with no video track the audio handler resets the
deadline.  The streaming path then blocks on the deadline and returns nil. -/
def start (env : StartEnv) (fuel : Nat) (c : ClientState) :
    Option (GoResult Unit) × ClientState × List RtpPacket :=
  match c.receivers with
  | none => (some (.err "producer without tracks"), c, [])
  | some [] => (some .panicked, c, [])
  | some (r0 :: rs) =>
    if r0.codec.name = CodecJPEG then
      match mjpegLoop env fuel 0 with
      | (some e, ps) => (some (.err e), c, ps)
      | (none, ps) => (none, c, ps)
    else
      let videoTrack := trackByKind (r0 :: rs) KindVideo
      match c.videoConfig.codecs with
      | [] => (some .panicked, c, [])
      | v0 :: _ =>
        let _videoCodec := trackToVideo videoTrack v0
        let audioTrack := trackByKind (r0 :: rs) KindAudio
        match c.audioConfig.codecs with
        | [] => (some .panicked, c, [])
        | a0 :: _ =>
          let _audioCodec := trackToAudio audioTrack a0
          let vs : Session :=
            { id := c.nextId, localEp := srtpEndpoint env 0, recv := 0, onReadRTP := none }
          let sa : Session :=
            { id := c.nextId + 1, localEp := srtpEndpoint env 1, recv := 0, onReadRTP := none }
          let c1 := { c with videoSession := some vs, audioSession := some sa,
                             nextId := c.nextId + 2 }
          match env.newStream with
          | .err e => (some (.err e), c1, [])
          | .panicked => (some .panicked, c1, [])
          | .ok _ =>
            let c2 := { c1 with registry := c1.registry ++ [vs.id, sa.id] }
            let wired :=
              match videoTrack with
              | some _ =>
                ({ vs with onReadRTP := some .videoLive },
                  match audioTrack with
                  | some _ => { sa with onReadRTP := some .audioPlain }
                  | none => sa)
              | none => (vs, { sa with onReadRTP := some .audioLive })
            let c3 := { c2 with videoSession := some wired.1, audioSession := some wired.2 }
            (some (.ok ()), c3, [])

/-- Modelled from the spec: `srtp.Server.DelSession` (outside src) removes
the given session from the registry; removing a nil or never-registered
session is a no-op, not an error. -/
def delSession (registry : List Nat) (s : Option Session) : List Nat :=
  match s with
  | none => registry
  | some sess => registry.erase sess.id

/-- stop embeds `Client.Stop`: close the producer base, remove both
sessions from the registry, and return the accessory connection's close
result (supplied by the environment). -/
def stop (closeResult : GoResult Unit) (c : ClientState) : GoResult Unit × ClientState :=
  let r1 := delSession c.registry c.videoSession
  let r2 := delSession r1 c.audioSession
  (closeResult, { c with registry := r2 })

/-- BridgeState records the observable effects of running the installed
inbound-packet handlers: deadline resets and the packets written to each
track. -/
structure BridgeState where
  resets : Nat
  videoWrites : List RtpPacket
  audioWrites : List RtpPacket
deriving DecidableEq, Repr

/-- runHandler gives the semantics of the three closures `Start`
installs: `videoLive` resets the shared deadline then writes to the video
track; `audioPlain` writes to the audio track without touching the
deadline; `audioLive` resets the deadline then writes to the audio
track. -/
def runHandler : HandlerSpec → RtpPacket → BridgeState → BridgeState
  | .videoLive, p, st =>
    { st with resets := st.resets + 1, videoWrites := st.videoWrites ++ [p] }
  | .audioPlain, p, st =>
    { st with audioWrites := st.audioWrites ++ [p] }
  | .audioLive, p, st =>
    { st with resets := st.resets + 1, audioWrites := st.audioWrites ++ [p] }

/-- LimState carries the two variables captured by the `limitter`
closure: the cumulative sample count `send` (a `time.Duration`, i.e. an
integer number it adds 480 to per forwarded packet) and the wall-clock
time of the first packet in nanoseconds. -/
structure LimState where
  send : Int
  firstTime : Int
deriving DecidableEq, Repr

/-- i64 wraps an integer into the signed 64-bit range, modelling Go's
two's-complement `time.Duration` (int64) arithmetic, whose overflow
wraps. -/
def i64 (x : Int) : Int := (x + 2 ^ 63) % 2 ^ 64 - 2 ^ 63

/-- durSub models `time.Time.Sub`, which saturates at the maximum and
minimum representable `time.Duration` instead of wrapping. -/
def durSub (a b : Int) : Int :=
  if a - b > 2 ^ 63 - 1 then 2 ^ 63 - 1
  else if a - b < -(2 ^ 63) then -(2 ^ 63)
  else a - b

/-- limitterStep embeds one invocation of the closure returned by
`limitter`, in int64 `time.Duration` arithmetic: on the first packet
(send still 0) record the start time and forward; afterwards compute the
elapsed sample time `now.Sub(firstTime) * 16000 / time.Second` — the
subtraction saturating (`durSub`), the multiplication wrapping at int64
(`i64`, so the computed elapsed time wraps once the span exceeds about
6.67 days), the division truncating toward zero (`Int.tdiv`, Go integer
division) — and drop the packet when the next total `send + 480` (itself
an int64 sum) exceeds it; a forwarded packet has 480 added to `send`
(wrapping) and its timestamp overwritten with `uint32(send)`, i.e. the
new total mod 2^32. -/
def limitterStep (st : LimState) (now : Int) (p : RtpPacket) :
    LimState × Option RtpPacket :=
  if st.send ≠ 0 then
    if i64 (st.send + 480) >
        Int.tdiv (i64 (durSub now st.firstTime * 16000)) 1000000000 then
      (st, none)
    else
      ({ st with send := i64 (st.send + 480) },
        some { p with timestamp := ((i64 (st.send + 480)) % 2 ^ 32).toNat })
  else
    ({ send := i64 (st.send + 480), firstTime := now },
      some { p with timestamp := ((i64 (st.send + 480)) % 2 ^ 32).toNat })

/-- limitterStateAfter gives the closure state after the first `n`
packets of a stream whose `i`-th packet arrives at wall-clock time
`arrival i` (nanoseconds); the state transition does not depend on packet
contents. -/
def limitterStateAfter (arrival : Nat → Int) : Nat → LimState
  | 0 => { send := 0, firstTime := 0 }
  | n + 1 => (limitterStep (limitterStateAfter arrival n) (arrival n) default).1

/-- limitterOut gives what the pacer does with the `n`-th packet of the
stream: `none` when dropped, `some p` when forwarded as `p` (packet
payloads are irrelevant to the decision, so the default packet is
threaded). -/
def limitterOut (arrival : Nat → Int) (n : Nat) : Option RtpPacket :=
  (limitterStep (limitterStateAfter arrival n) (arrival n) default).2

/-- mjpegPackets describes the packets the MJPEG loop writes for `k`
successful fetches starting at fetch index `i`, when fetch `j` yields the
bytes `b j`: each one wraps the raw bytes with the 90 kHz clock read of
that iteration. -/
def mjpegPackets (env : StartEnv) (b : Nat → List Nat) : Nat → Nat → List RtpPacket
  | 0, _ => []
  | k + 1, i =>
    { timestamp := env.now90000 i, payload := b i } :: mjpegPackets env b k (i + 1)

/-- c0 is a freshly dialed client: nothing negotiated, no receivers, no
sessions, empty registry. -/
def c0 : ClientState :=
  { medias := none, receivers := none, videoConfig := ⟨[]⟩, audioConfig := ⟨[]⟩,
    videoSession := none, audioSession := none, registry := [], nextId := 0 }

/-- env0 is a concrete benign environment for `start`. -/
def env0 : StartEnv :=
  { localIP := "192.168.1.2", port := 32100,
    randStrings := fun _ _ => [], randU32 := fun _ => 0,
    newStream := .ok 0, images := fun _ => .error "fetch failed",
    now90000 := fun i => 90000 * i }

/-- recvVideo is a streaming video receiver track. -/
def recvVideo : Receiver := ⟨⟨"H264", "video"⟩⟩

/-- recvAudio is a streaming audio receiver track. -/
def recvAudio : Receiver := ⟨⟨"PCMU", "audio"⟩⟩

/-- recvJpeg is a still-image receiver track. -/
def recvJpeg : Receiver := ⟨⟨"JPEG", "video"⟩⟩

/-- cBoth is a negotiated client holding one video and one audio track. -/
def cBoth : ClientState :=
  { c0 with receivers := some [recvVideo, recvAudio],
            videoConfig := ⟨[⟨1⟩]⟩, audioConfig := ⟨[⟨2⟩]⟩ }

/-- cAudioOnly is a negotiated client holding only an audio track. -/
def cAudioOnly : ClientState :=
  { c0 with receivers := some [recvAudio],
            videoConfig := ⟨[⟨1⟩]⟩, audioConfig := ⟨[⟨2⟩]⟩ }

/-- cJpeg is a client whose only receiver carries the still-image codec. -/
def cJpeg : ClientState := { c0 with receivers := some [recvJpeg] }

/-- cStarted is a client whose two sessions exist with known byte
counters. -/
def cStarted : ClientState :=
  { c0 with
      videoSession := some { id := 0, localEp := srtpEndpoint env0 0, recv := 100,
                             onReadRTP := none },
      audioSession := some { id := 1, localEp := srtpEndpoint env0 1, recv := 23,
                             onReadRTP := none } }

/-- envErr is env0 with the accessory declining the remote stream open. -/
def envErr : StartEnv := { env0 with newStream := .err "remote declined" }

/-- cRegistered is cBoth with an unrelated session already registered and
the identity allocator past it. -/
def cRegistered : ClientState := { cBoth with registry := [5], nextId := 10 }

/-- env8 serves two images then fails every further fetch. -/
def env8 : StartEnv :=
  { env0 with images := fun i => if i < 2 then .ok [i] else .error "fetch failed" }

/-- envRand is env0 with distinguishable random material. -/
def envRand : StartEnv :=
  { env0 with randStrings := fun _ n => List.range n, randU32 := fun _ => 1234 }

/-- envC4 answers the accessory read, decodes the video capability, and
has no audio capability characteristic. -/
def envC4 : HapEnv :=
  { firstAccessory := .ok { videoChar := some ⟨.ok ⟨[⟨7⟩]⟩⟩, audioChar := none } }

/-- envOk answers every negotiation step successfully. -/
def envOk : HapEnv :=
  { firstAccessory := .ok { videoChar := some ⟨.ok ⟨[⟨7⟩]⟩⟩,
                            audioChar := some ⟨.ok ⟨[⟨8⟩]⟩⟩ } }

/-- envFail fails the accessory description read. -/
def envFail : HapEnv := { firstAccessory := .err "i/o" }

/-- paceArr is a packet arrival schedule of one packet per 60 ms in
nanoseconds — half the pacer's nominal 30 ms cadence, so every packet is
forwarded.  The uint32 stamp wrap (cumulative total 2^32 samples, near
index 8947848, about 6.2 days in) is reached before the int64 wrap of the
elapsed-time product (about 6.67 days in), keeping the whole trace inside
int64 range. -/
def paceArr : Nat → Int := fun i => (i : Int) * 60000000

/-- wiredHandlers gives, as a function of which tracks exist (video
first), the pair of inbound handlers `Start` installs on the video and
audio session: with a video track the video handler resets the deadline
and writes the video track, and the audio handler — installed only when
an audio track also exists — writes the audio track without a reset; with
no video track only the audio handler is installed and it resets the
deadline. -/
def wiredHandlers :
    Option Receiver → Option Receiver → Option HandlerSpec × Option HandlerSpec
  | some _, some _ => (some .videoLive, some .audioPlain)
  | some _, none => (some .videoLive, none)
  | none, _ => (none, some .audioLive)

/-- getMedias never touches the receiver list, the sessions, the registry
or the identity allocator, whatever branch it takes. -/
theorem getMedias_frame (env : HapEnv) (c : ClientState) :
    (getMedias env c).2.receivers = c.receivers ∧
    (getMedias env c).2.videoSession = c.videoSession ∧
    (getMedias env c).2.audioSession = c.audioSession ∧
    (getMedias env c).2.registry = c.registry := by
  unfold getMedias
  repeat' split
  all_goals simp

/-- getMedias leaves the cached media list unchanged on every call that
returns no media. -/
theorem getMedias_fail_medias (env : HapEnv) (c : ClientState)
    (h : (getMedias env c).1 = none) :
    (getMedias env c).2.medias = c.medias := by
  unfold getMedias at h ⊢
  repeat' split at h
  all_goals simp_all

/-- getMedias caches exactly the returned list on every successful
call. -/
theorem getMedias_ok_medias (env : HapEnv) (c : ClientState) (m : List Media)
    (h : (getMedias env c).1 = some m) :
    (getMedias env c).2.medias = some m := by
  unfold getMedias at h ⊢
  repeat' split at h
  all_goals simp_all

/-- getMedias returns the cached list unchanged, touching nothing,
whenever the cache is set. -/
theorem getMedias_cached (env : HapEnv) (c : ClientState) (m : List Media)
    (h : c.medias = some m) : getMedias env c = (some m, c) := by
  unfold getMedias
  rw [h]

/-- C1: status reporting reads `c.videoSession.Recv + c.audioSession.Recv`
unconditionally: with both sessions present it reports the sum of the two
received-byte counters, but on a client with a nil video or audio session
(one that never completed Start) it dereferences nil and panics, contrary
to the claim that it never panics there. -/
theorem C1_thm (url : String) (c : ClientState) :
    ((c.videoSession = none ∨ c.audioSession = none) →
      marshalJSON url c = .panicked) ∧
    (∀ vs sa, c.videoSession = some vs → c.audioSession = some sa →
      marshalJSON url c =
        .ok { type := "HomeKit active producer", url := url, medias := c.medias,
              receivers := c.receivers, recv := vs.recv + sa.recv }) := by
  constructor
  · rintro (h | h)
    · cases ha : c.audioSession <;> simp [marshalJSON, h, ha]
    · cases hv : c.videoSession <;> simp [marshalJSON, h, hv]
  · intro vs sa hv ha
    simp [marshalJSON, hv, ha]

/-- C1 witness: a freshly dialed client panics in MarshalJSON; a started
client reports 100 + 23 = 123 received bytes. -/
theorem C1_wit :
    marshalJSON "homekit://cam" c0 = .panicked ∧
    marshalJSON "homekit://cam" cStarted =
      .ok { type := "HomeKit active producer", url := "homekit://cam",
            medias := none, receivers := none, recv := 123 } := by
  constructor
  · exact (C1_thm "homekit://cam" c0).1 (Or.inl rfl)
  · exact (C1_thm "homekit://cam" cStarted).2 _ _ rfl rfl

/-- C2 counterexample: a client whose receiver slice is non-nil but empty
holds zero tracks, yet Start panics at `c.Receivers[0]` instead of
returning the "producer without tracks" error (the guard tests `== nil`,
not the length). -/
theorem C2_cex :
    (start env0 0 { c0 with receivers := some [] }).1 = some .panicked ∧
    (some GoResult.panicked : Option (GoResult Unit)) ≠
      some (.err "producer without tracks") := by
  exact ⟨rfl, by decide⟩

/-- C2 amended: a client whose receiver list is nil gets the
"producer without tracks" error from Start, with the state untouched (no
session created, nothing registered); a non-nil empty receiver list
instead panics on the first-receiver access, likewise before creating or
registering anything. -/
theorem C2_thm (env : StartEnv) (fuel : Nat) (c : ClientState) :
    (c.receivers = none →
      start env fuel c = (some (.err "producer without tracks"), c, [])) ∧
    (c.receivers = some [] → start env fuel c = (some .panicked, c, [])) := by
  constructor <;> intro h <;> simp [start, h]

/-- C2 witness: the freshly dialed client has a nil receiver list and
gets exactly the error with no state change. -/
theorem C2_wit :
    start env0 0 c0 = (some (.err "producer without tracks"), c0, []) :=
  (C2_thm env0 0 c0).1 rfl

/-- C4 counterexample: with the video capability decoding successfully
and the audio capability characteristic absent, GetMedias returns no
media, yet the decoded video descriptor is retained on the client — a
half-decoded descriptor set survives the failure. -/
theorem C4_cex :
    (getMedias envC4 c0).1 = none ∧
    (getMedias envC4 c0).2.videoConfig ≠ c0.videoConfig ∧
    (getMedias envC4 c0).2 ≠ c0 := by
  refine ⟨rfl, by decide, by decide⟩

/-- C4 amended: on any failing step GetMedias returns no media and the
client caches no media list (the cache field is exactly as before, so no
partial media list is ever visible), and the receivers, sessions and
registry are untouched; however the capability descriptors decoded before
the failing step remain stored in the client's config fields. -/
theorem C4_thm (env : HapEnv) (c : ClientState)
    (h : (getMedias env c).1 = none) :
    (getMedias env c).2.medias = c.medias ∧
    (getMedias env c).2.receivers = c.receivers ∧
    (getMedias env c).2.videoSession = c.videoSession ∧
    (getMedias env c).2.audioSession = c.audioSession ∧
    (getMedias env c).2.registry = c.registry :=
  ⟨getMedias_fail_medias env c h, (getMedias_frame env c).1,
    (getMedias_frame env c).2.1, (getMedias_frame env c).2.2.1,
    (getMedias_frame env c).2.2.2⟩

/-- C4 witness: a failing accessory read leaves the fresh client's cache
and state unchanged. -/
theorem C4_wit :
    (getMedias envFail c0).2.medias = c0.medias ∧
    (getMedias envFail c0).2.receivers = c0.receivers ∧
    (getMedias envFail c0).2.videoSession = c0.videoSession ∧
    (getMedias envFail c0).2.audioSession = c0.audioSession ∧
    (getMedias envFail c0).2.registry = c0.registry :=
  C4_thm envFail c0 rfl

/-- C6: after a first successful GetMedias call, every subsequent call —
whatever the accessory would now answer — returns the identical cached
media list and leaves the client state unchanged, performing no further
capability lookup. -/
theorem C6_thm (env1 env2 : HapEnv) (c : ClientState) (m : List Media)
    (h : (getMedias env1 c).1 = some m) :
    getMedias env2 (getMedias env1 c).2 = (some m, (getMedias env1 c).2) :=
  getMedias_cached env2 _ m (getMedias_ok_medias env1 c m h)

/-- C6 witness: a successful first call against the fully answering
accessory, then a second call against a failing accessory, still returns
the cached list with no state change. -/
theorem C6_wit :
    getMedias envFail (getMedias envOk c0).2 =
      (some [videoToMedia [⟨7⟩], audioToMedia [⟨8⟩]], (getMedias envOk c0).2) :=
  C6_thm envOk envFail c0 _ rfl

/-- C9: a failing GetMedias call leaves the media cache unset (nil), so a
subsequent call does not return a cached failure: against an accessory
that now answers every step, it performs the reads afresh and returns the
media built from the fresh descriptors. -/
theorem C9_thm (env1 env2 : HapEnv) (c : ClientState) (acc : Accessory)
    (ch1 ch2 : Characteristic) (vc ac : StreamConfig)
    (h0 : c.medias = none) (h1 : (getMedias env1 c).1 = none)
    (e2 : env2.firstAccessory = .ok acc) (ev : acc.videoChar = some ch1)
    (er : ch1.readTLV8 = .ok vc) (ea : acc.audioChar = some ch2)
    (er2 : ch2.readTLV8 = .ok ac) :
    (getMedias env1 c).2.medias = none ∧
    (getMedias env2 (getMedias env1 c).2).1 =
      some [videoToMedia vc.codecs, audioToMedia ac.codecs] := by
  have hm : (getMedias env1 c).2.medias = none := by
    rw [getMedias_fail_medias env1 c h1, h0]
  refine ⟨hm, ?_⟩
  generalize hg : (getMedias env1 c).2 = c1 at hm ⊢
  simp only [getMedias, hm, e2, ev, er, ea, er2]

/-- C9 witness: a failed read leaves the cache nil and a later
fully-successful read returns the fresh media list. -/
theorem C9_wit :
    (getMedias envFail c0).2.medias = none ∧
    (getMedias envOk (getMedias envFail c0).2).1 =
      some [videoToMedia [⟨7⟩], audioToMedia [⟨8⟩]] :=
  C9_thm envFail envOk c0
    { videoChar := some ⟨.ok ⟨[⟨7⟩]⟩⟩, audioChar := some ⟨.ok ⟨[⟨8⟩]⟩⟩ }
    ⟨.ok ⟨[⟨7⟩]⟩⟩ ⟨.ok ⟨[⟨8⟩]⟩⟩ ⟨[⟨7⟩]⟩ ⟨[⟨8⟩]⟩
    rfl rfl rfl rfl rfl rfl rfl

/-- start on the streaming path with a successful remote open: both
sessions are created with fresh endpoints and stored, both are registered
(in order) after the open, the handlers are wired according to which
tracks exist, and the call returns nil once the deadline fires. -/
theorem start_stream_ok (env : StartEnv) (fuel : Nat) (c : ClientState)
    (r0 : Receiver) (rs : List Receiver) (v0 : CodecParams) (vtl : List CodecParams)
    (a0 : CodecParams) (atl : List CodecParams) (hnd : Nat)
    (hrecv : c.receivers = some (r0 :: rs)) (hjpeg : ¬ r0.codec.name = CodecJPEG)
    (hvc : c.videoConfig.codecs = v0 :: vtl) (hac : c.audioConfig.codecs = a0 :: atl)
    (hns : env.newStream = .ok hnd) :
    start env fuel c =
      (some (.ok ()),
        { c with
            videoSession := some
              { id := c.nextId, localEp := srtpEndpoint env 0, recv := 0,
                onReadRTP := (wiredHandlers (trackByKind (r0 :: rs) KindVideo)
                  (trackByKind (r0 :: rs) KindAudio)).1 },
            audioSession := some
              { id := c.nextId + 1, localEp := srtpEndpoint env 1, recv := 0,
                onReadRTP := (wiredHandlers (trackByKind (r0 :: rs) KindVideo)
                  (trackByKind (r0 :: rs) KindAudio)).2 },
            registry := c.registry ++ [c.nextId, c.nextId + 1],
            nextId := c.nextId + 2 },
        []) := by
  cases hv : trackByKind (r0 :: rs) KindVideo <;>
    cases ha : trackByKind (r0 :: rs) KindAudio <;>
      simp [start, hrecv, hjpeg, hvc, hac, hns, hv, ha, wiredHandlers]

/-- start on the streaming path with the accessory declining the remote
open: both locally built sessions are stored on the client, the error is
returned, and nothing is registered. -/
theorem start_stream_err (env : StartEnv) (fuel : Nat) (c : ClientState)
    (r0 : Receiver) (rs : List Receiver) (v0 : CodecParams) (vtl : List CodecParams)
    (a0 : CodecParams) (atl : List CodecParams) (e : String)
    (hrecv : c.receivers = some (r0 :: rs)) (hjpeg : ¬ r0.codec.name = CodecJPEG)
    (hvc : c.videoConfig.codecs = v0 :: vtl) (hac : c.audioConfig.codecs = a0 :: atl)
    (hns : env.newStream = .err e) :
    start env fuel c =
      (some (.err e),
        { c with
            videoSession := some
              { id := c.nextId, localEp := srtpEndpoint env 0, recv := 0,
                onReadRTP := none },
            audioSession := some
              { id := c.nextId + 1, localEp := srtpEndpoint env 1, recv := 0,
                onReadRTP := none },
            nextId := c.nextId + 2 },
        []) := by
  simp [start, hrecv, hjpeg, hvc, hac, hns]

/-- C3 counterexample: on a successful streaming Start with both a video
and an audio track, the installed audio handler is the plain write — it
does not reset the shared deadline (only the video handler does), contrary
to the claim that a packet delivered to either callback resets it. -/
theorem C3_cex :
    (start env0 0 cBoth).1 = some (.ok ()) ∧
    ((start env0 0 cBoth).2.1.audioSession.map Session.onReadRTP) =
      some (some .audioPlain) ∧
    (runHandler .audioPlain default
      { resets := 0, videoWrites := [], audioWrites := [] }).resets = 0 ∧
    (runHandler .videoLive default
      { resets := 0, videoWrites := [], audioWrites := [] }).resets = 1 :=
  ⟨rfl, rfl, rfl, rfl⟩

/-- C3 amended: after a successful streaming Start with both a video and
an audio track present, a packet delivered to the video session's callback
resets the shared deadline and is written to the video track, while a
packet delivered to the audio session's callback is written to the audio
track without resetting the deadline (video carries the liveness signal);
Start returns with no error once the deadline fires after no
deadline-resetting packet has arrived for the deadline window. -/
theorem C3_thm (env : StartEnv) (fuel : Nat) (c : ClientState)
    (r0 : Receiver) (rs : List Receiver) (v0 : CodecParams) (vtl : List CodecParams)
    (a0 : CodecParams) (atl : List CodecParams) (hnd : Nat) (vr ar : Receiver)
    (hrecv : c.receivers = some (r0 :: rs)) (hjpeg : ¬ r0.codec.name = CodecJPEG)
    (hvc : c.videoConfig.codecs = v0 :: vtl) (hac : c.audioConfig.codecs = a0 :: atl)
    (hns : env.newStream = .ok hnd)
    (hvt : trackByKind (r0 :: rs) KindVideo = some vr)
    (hat : trackByKind (r0 :: rs) KindAudio = some ar) :
    (start env fuel c).1 = some (.ok ()) ∧
    (∃ vs, (start env fuel c).2.1.videoSession = some vs ∧
      vs.onReadRTP = some .videoLive) ∧
    (∃ sa, (start env fuel c).2.1.audioSession = some sa ∧
      sa.onReadRTP = some .audioPlain) ∧
    (∀ p st, (runHandler .videoLive p st).resets = st.resets + 1 ∧
      (runHandler .videoLive p st).videoWrites = st.videoWrites ++ [p]) ∧
    (∀ p st, (runHandler .audioPlain p st).resets = st.resets ∧
      (runHandler .audioPlain p st).audioWrites = st.audioWrites ++ [p]) := by
  rw [start_stream_ok env fuel c r0 rs v0 vtl a0 atl hnd hrecv hjpeg hvc hac hns]
  refine ⟨rfl, ⟨_, rfl, ?_⟩, ⟨_, rfl, ?_⟩, ?_, ?_⟩
  · simp [hvt, hat, wiredHandlers]
  · simp [hvt, hat, wiredHandlers]
  · intro p st; exact ⟨rfl, rfl⟩
  · intro p st; exact ⟨rfl, rfl⟩

/-- C3 witness: the concrete two-track client, started successfully,
shows the wiring and the handler semantics. -/
theorem C3_wit :
    (start env0 3 cBoth).1 = some (.ok ()) ∧
    (∃ vs, (start env0 3 cBoth).2.1.videoSession = some vs ∧
      vs.onReadRTP = some .videoLive) ∧
    (∃ sa, (start env0 3 cBoth).2.1.audioSession = some sa ∧
      sa.onReadRTP = some .audioPlain) ∧
    (∀ p st, (runHandler .videoLive p st).resets = st.resets + 1 ∧
      (runHandler .videoLive p st).videoWrites = st.videoWrites ++ [p]) ∧
    (∀ p st, (runHandler .audioPlain p st).resets = st.resets ∧
      (runHandler .audioPlain p st).audioWrites = st.audioWrites ++ [p]) :=
  C3_thm env0 3 cBoth recvVideo [recvAudio] ⟨1⟩ [] ⟨2⟩ [] 0 recvVideo recvAudio
    rfl (by decide) rfl rfl rfl rfl rfl

/-- C5: when the accessory declines the remote stream open, Start returns
the accessory's error, the registry is exactly as before (no session was
registered before the open), and a subsequent Stop removes nothing
effectively — the registry is still exactly as before, the locally
constructed sessions never having been in it. -/
theorem C5_thm (env : StartEnv) (fuel : Nat) (c : ClientState) (ce : GoResult Unit)
    (r0 : Receiver) (rs : List Receiver) (v0 : CodecParams) (vtl : List CodecParams)
    (a0 : CodecParams) (atl : List CodecParams) (e : String)
    (hrecv : c.receivers = some (r0 :: rs)) (hjpeg : ¬ r0.codec.name = CodecJPEG)
    (hvc : c.videoConfig.codecs = v0 :: vtl) (hac : c.audioConfig.codecs = a0 :: atl)
    (hns : env.newStream = .err e)
    (hfresh : ∀ i ∈ c.registry, i < c.nextId) :
    (start env fuel c).1 = some (.err e) ∧
    (start env fuel c).2.1.registry = c.registry ∧
    (stop ce (start env fuel c).2.1).2.registry = c.registry := by
  rw [start_stream_err env fuel c r0 rs v0 vtl a0 atl e hrecv hjpeg hvc hac hns]
  refine ⟨rfl, rfl, ?_⟩
  simp only [stop, delSession]
  have h1 : c.nextId ∉ c.registry := fun hmem => lt_irrefl _ (hfresh _ hmem)
  have h2 : c.nextId + 1 ∉ c.registry := fun hmem => by
    have := hfresh _ hmem; omega
  rw [List.erase_of_not_mem h1, List.erase_of_not_mem h2]

/-- C5 witness: a client with one unrelated registered session, declined
by the accessory: the error surfaces and the registry never changes. -/
theorem C5_wit :
    (start envErr 0 cRegistered).1 = some (.err "remote declined") ∧
    (start envErr 0 cRegistered).2.1.registry = cRegistered.registry ∧
    (stop (.ok ()) (start envErr 0 cRegistered).2.1).2.registry =
      cRegistered.registry :=
  C5_thm envErr 0 cRegistered (.ok ()) recvVideo [recvAudio] ⟨1⟩ [] ⟨2⟩ []
    "remote declined" rfl (by decide) rfl rfl rfl (by decide)

/-- mjpegLoop returns the first fetch error after writing one wrapped
packet per preceding successful fetch. -/
theorem mjpegLoop_err (env : StartEnv) (b : Nat → List Nat) (e : String) :
    ∀ (k i fuel : Nat), (∀ j, j < k → env.images (i + j) = .ok (b (i + j))) →
      env.images (i + k) = .error e → k < fuel →
      mjpegLoop env fuel i = (some e, mjpegPackets env b k i) := by
  intro k
  induction k with
  | zero =>
    intro i fuel _ he hfuel
    cases fuel with
    | zero => omega
    | succ f =>
      simp only [Nat.add_zero] at he
      simp [mjpegLoop, mjpegPackets, he]
  | succ n ih =>
    intro i fuel hok he hfuel
    cases fuel with
    | zero => omega
    | succ f =>
      have h0 : env.images i = .ok (b i) := by
        have := hok 0 (Nat.succ_pos n)
        simpa using this
      have hok2 : ∀ j, j < n → env.images (i + 1 + j) = .ok (b (i + 1 + j)) := by
        intro j hj
        have := hok (j + 1) (by omega)
        rw [show i + (j + 1) = i + 1 + j by omega] at this
        exact this
      have he2 : env.images (i + 1 + n) = .error e := by
        rw [show i + 1 + n = i + (n + 1) by omega]
        exact he
      have hrec := ih (i + 1) f hok2 he2 (by omega)
      simp [mjpegLoop, mjpegPackets, h0, hrec]

/-- mjpegLoop never exits while every fetch succeeds. -/
theorem mjpegLoop_ok (env : StartEnv) (b : Nat → List Nat)
    (hok : ∀ j, env.images j = .ok (b j)) :
    ∀ (fuel i : Nat), (mjpegLoop env fuel i).1 = none := by
  intro fuel
  induction fuel with
  | zero => intro i; simp [mjpegLoop]
  | succ f ih => intro i; simp [mjpegLoop, hok i, ih (i + 1)]

/-- C8: with the first receiver's codec the still-image type, Start runs
the MJPEG polling loop: if the first `k` fetches succeed and fetch `k`
fails, Start returns that error having written exactly the `k` wrapped
single-packet frames, touching no other state and never retrying; while
every fetch succeeds the loop never exits. -/
theorem C8_thm (env : StartEnv) (fuel : Nat) (c : ClientState) (r0 : Receiver)
    (rs : List Receiver) (b : Nat → List Nat)
    (hrecv : c.receivers = some (r0 :: rs)) (hjpeg : r0.codec.name = CodecJPEG) :
    (∀ k e, (∀ j, j < k → env.images j = .ok (b j)) → env.images k = .error e →
      k < fuel →
      start env fuel c = (some (.err e), c, mjpegPackets env b k 0)) ∧
    ((∀ j, env.images j = .ok (b j)) →
      (start env fuel c).1 = none ∧ (start env fuel c).2.1 = c) := by
  constructor
  · intro k e hok he hfuel
    have hl := mjpegLoop_err env b e k 0 fuel (by simpa using hok) (by simpa using he)
      hfuel
    simp [start, hrecv, hjpeg, hl]
  · intro hok
    have hl := mjpegLoop_ok env b hok fuel 0
    rcases hm : mjpegLoop env fuel 0 with ⟨o, ps⟩
    rw [hm] at hl
    simp only at hl
    subst hl
    simp [start, hrecv, hjpeg, hm]

/-- C8 witness: two good frames then a failed fetch: Start returns the
fetch error after writing the two wrapped frames. -/
theorem C8_wit :
    start env8 3 cJpeg =
      (some (.err "fetch failed"), cJpeg, mjpegPackets env8 (fun i => [i]) 2 0) :=
  (C8_thm env8 3 cJpeg recvJpeg [] (fun i => [i]) rfl rfl).1 2 "fetch failed"
    (by intro j hj; interval_cases j <;> rfl) rfl (by omega)

/-- C10: every streaming Start that reaches session setup creates both a
video and an audio transport session — each with a fresh endpoint carrying
a 16-byte master key, a 14-byte salt, a 32-bit SSRC and the accessory
connection's local address — and, once the remote open succeeds, registers
both with the transport registry, with no hypothesis on which track kinds
are present among the receivers. -/
theorem C10_thm (env : StartEnv) (fuel : Nat) (c : ClientState)
    (r0 : Receiver) (rs : List Receiver) (v0 : CodecParams) (vtl : List CodecParams)
    (a0 : CodecParams) (atl : List CodecParams) (hnd : Nat)
    (hrecv : c.receivers = some (r0 :: rs)) (hjpeg : ¬ r0.codec.name = CodecJPEG)
    (hvc : c.videoConfig.codecs = v0 :: vtl) (hac : c.audioConfig.codecs = a0 :: atl)
    (hns : env.newStream = .ok hnd)
    (hlen : ∀ i n, (env.randStrings i n).length = n)
    (hu32 : ∀ i, env.randU32 i < 2 ^ 32) :
    ∃ vs sa,
      (start env fuel c).2.1.videoSession = some vs ∧
      (start env fuel c).2.1.audioSession = some sa ∧
      vs.localEp.masterKey.length = 16 ∧ vs.localEp.masterSalt.length = 14 ∧
      vs.localEp.ssrc < 2 ^ 32 ∧ sa.localEp.masterKey.length = 16 ∧
      sa.localEp.masterSalt.length = 14 ∧ sa.localEp.ssrc < 2 ^ 32 ∧
      vs.localEp.addr = env.localIP ∧ sa.localEp.addr = env.localIP ∧
      (start env fuel c).2.1.registry = c.registry ++ [vs.id, sa.id] ∧
      (start env fuel c).1 = some (.ok ()) := by
  rw [start_stream_ok env fuel c r0 rs v0 vtl a0 atl hnd hrecv hjpeg hvc hac hns]
  exact ⟨_, _, rfl, rfl, hlen 0 16, hlen 1 14, hu32 0, hlen 2 16, hlen 3 14,
    hu32 1, rfl, rfl, rfl, rfl⟩

/-- C10 witness: an audio-only receiver set still creates and registers
both sessions, with well-formed fresh endpoints. -/
theorem C10_wit :
    ∃ vs sa,
      (start envRand 0 cAudioOnly).2.1.videoSession = some vs ∧
      (start envRand 0 cAudioOnly).2.1.audioSession = some sa ∧
      vs.localEp.masterKey.length = 16 ∧ vs.localEp.masterSalt.length = 14 ∧
      vs.localEp.ssrc < 2 ^ 32 ∧ sa.localEp.masterKey.length = 16 ∧
      sa.localEp.masterSalt.length = 14 ∧ sa.localEp.ssrc < 2 ^ 32 ∧
      vs.localEp.addr = envRand.localIP ∧ sa.localEp.addr = envRand.localIP ∧
      (start envRand 0 cAudioOnly).2.1.registry =
        cAudioOnly.registry ++ [vs.id, sa.id] ∧
      (start envRand 0 cAudioOnly).1 = some (.ok ()) :=
  C10_thm envRand 0 cAudioOnly recvAudio [] ⟨1⟩ [] ⟨2⟩ [] 0
    rfl (by decide) rfl rfl rfl
    (show ∀ i n, (envRand.randStrings i n).length = n by intro i n; simp [envRand])
    (show ∀ i, envRand.randU32 i < 2 ^ 32 by intro i; norm_num [envRand])

/-- i64 is the identity on values already in the int64 range. -/
theorem i64_eq_self (x : Int) (h1 : -(2 ^ 63) ≤ x) (h2 : x < 2 ^ 63) : i64 x = x := by
  unfold i64
  omega

/-- Int.tdiv agrees with Euclidean division on nonnegative operands. -/
theorem tdiv_eq_ediv_of_nonneg (a b : Int) (ha : 0 ≤ a) (hb : 0 ≤ b) :
    Int.tdiv a b = a / b :=
  Int.tdiv_eq_ediv ha hb

/-- limitterStep on the first packet: record the start time, add 480 to
the total and forward. -/
theorem limitterStep_first (st : LimState) (now : Int) (p : RtpPacket)
    (hs : st.send = 0) :
    limitterStep st now p =
      ({ send := i64 (st.send + 480), firstTime := now },
        some { p with timestamp := ((i64 (st.send + 480)) % 2 ^ 32).toNat }) := by
  unfold limitterStep
  rw [if_neg (by simp [hs])]

/-- limitterStep on a later packet that passes the rate test: the total
advances by 480 (as an int64 sum) and the packet is forwarded stamped
with the new total mod 2^32. -/
theorem limitterStep_forward (st : LimState) (now : Int) (p : RtpPacket)
    (hs : st.send ≠ 0)
    (hcond : ¬ (i64 (st.send + 480) >
      Int.tdiv (i64 (durSub now st.firstTime * 16000)) 1000000000)) :
    limitterStep st now p =
      ({ st with send := i64 (st.send + 480) },
        some { p with timestamp := ((i64 (st.send + 480)) % 2 ^ 32).toNat }) := by
  unfold limitterStep
  rw [if_pos hs, if_neg hcond]

/-- limitterStep after the first packet, characterized: a packet is
dropped exactly when the int64-computed next total exceeds the
int64-computed elapsed sample time, and a forwarded packet advances the
total by 480 (wrapping) and carries the new total mod 2^32. -/
theorem limitterStep_char (st : LimState) (now : Int) (p : RtpPacket)
    (hs : st.send ≠ 0) :
    ((limitterStep st now p).2 = none ↔
      i64 (st.send + 480) >
        Int.tdiv (i64 (durSub now st.firstTime * 16000)) 1000000000) ∧
    (∀ q, (limitterStep st now p).2 = some q →
      (limitterStep st now p).1.send = i64 (st.send + 480) ∧
      q.timestamp = ((i64 (st.send + 480)) % 2 ^ 32).toNat) := by
  unfold limitterStep
  rw [if_pos hs]
  split_ifs with hd
  · exact ⟨by simp [hd], by intro q hq; simp at hq⟩
  · refine ⟨by simp [hd], ?_⟩
    intro q hq
    injection hq with hq2
    rw [← hq2]
    exact ⟨rfl, rfl⟩

/-- limitterStep below the overflow horizon: while the span is
nonnegative, its sample product is below 2^63 and the total is positive
and below 2^63 − 480, the drop test is exactly the mathematical rule
"next frame end position exceeds (now − start) · 16000 / second". -/
theorem limitterStep_drop_iff (st : LimState) (now : Int) (p : RtpPacket)
    (h1 : 0 ≤ now - st.firstTime) (h2 : (now - st.firstTime) * 16000 < 2 ^ 63)
    (h3 : 0 < st.send) (h4 : st.send + 480 < 2 ^ 63) :
    ((limitterStep st now p).2 = none ↔
      st.send + 480 > (now - st.firstTime) * 16000 / 1000000000) := by
  have hs : st.send ≠ 0 := ne_of_gt h3
  have hsub : durSub now st.firstTime = now - st.firstTime := by
    unfold durSub
    split_ifs with ha hb
    · exfalso; omega
    · exfalso; omega
    · rfl
  have hi1 : i64 ((now - st.firstTime) * 16000) = (now - st.firstTime) * 16000 :=
    i64_eq_self _ (by omega) h2
  have hi2 : i64 (st.send + 480) = st.send + 480 := i64_eq_self _ (by omega) h4
  have hdv : Int.tdiv ((now - st.firstTime) * 16000) 1000000000 =
      (now - st.firstTime) * 16000 / 1000000000 :=
    tdiv_eq_ediv_of_nonneg _ _ (by omega) (by norm_num)
  unfold limitterStep
  rw [if_pos hs, hsub, hi1, hi2, hdv]
  split_ifs with hd
  · simp [hd]
  · simp [hd]

/-- limitter on the one-per-60-ms schedule forwards every packet while
the int64 arithmetic stays in range: after n packets the cumulative
sample count is 480·n and the recorded start time is the first arrival
(time 0). -/
theorem limitter_paceArr_state : ∀ n : Nat, n ≤ 9000000 →
    limitterStateAfter paceArr n = { send := 480 * (n : Int), firstTime := 0 } := by
  intro n
  induction n with
  | zero => intro _; simp [limitterStateAfter]
  | succ m ih =>
    intro hm
    have hstate : limitterStateAfter paceArr (m + 1) =
        (limitterStep (limitterStateAfter paceArr m) (paceArr m) default).1 := rfl
    rw [hstate, ih (by omega)]
    rcases Nat.eq_zero_or_pos m with hm0 | hm0
    · subst hm0
      rw [limitterStep_first _ _ _ (by norm_num)]
      simp only [LimState.mk.injEq]
      constructor
      · norm_num [i64]
      · simp [paceArr]
    · have hm1 : (1 : Int) ≤ (m : Int) := by exact_mod_cast hm0
      have hmB : (m : Int) ≤ 9000000 := by exact_mod_cast (show m ≤ 9000000 by omega)
      have hsub : durSub (paceArr m) 0 = (m : Int) * 60000000 := by
        unfold durSub paceArr
        split_ifs with ha hb
        · exfalso; omega
        · exfalso; omega
        · omega
      have hprod : i64 (durSub (paceArr m) 0 * 16000) = (m : Int) * 960000000000 := by
        rw [hsub, show (m : Int) * 60000000 * 16000 = (m : Int) * 960000000000 by ring]
        exact i64_eq_self _ (by omega) (by omega)
      have hi2 : i64 (480 * (m : Int) + 480) = 480 * (m : Int) + 480 :=
        i64_eq_self _ (by omega) (by omega)
      have hdv : Int.tdiv ((m : Int) * 960000000000) 1000000000 = 960 * (m : Int) := by
        rw [tdiv_eq_ediv_of_nonneg _ _ (by omega) (by norm_num),
          show (m : Int) * 960000000000 = 960 * (m : Int) * 1000000000 by ring]
        exact Int.mul_ediv_cancel _ (by norm_num)
      have hcond : ¬ (i64 (480 * (m : Int) + 480) >
          Int.tdiv (i64 (durSub (paceArr m) 0 * 16000)) 1000000000) := by
        rw [hi2, hprod, hdv]
        omega
      rw [limitterStep_forward { send := 480 * (m : Int), firstTime := 0 } (paceArr m)
        default (by show (480 * (m : Int)) ≠ 0; omega) hcond]
      simp only [LimState.mk.injEq, hi2]
      constructor
      · push_cast
        ring
      · trivial

/-- limitter output on the one-per-60-ms schedule: every packet after
the first is forwarded, stamped with the new total 480·(n+1) mod 2^32. -/
theorem limitter_paceArr_out (n : Nat) (hn1 : 1 ≤ n) (hn2 : n ≤ 8999999) :
    limitterOut paceArr n =
      some { timestamp := ((480 * (n : Int) + 480) % 2 ^ 32).toNat, payload := [] } := by
  unfold limitterOut
  rw [limitter_paceArr_state n (by omega)]
  have hm1 : (1 : Int) ≤ (n : Int) := by exact_mod_cast hn1
  have hmB : (n : Int) ≤ 9000000 := by exact_mod_cast (show n ≤ 9000000 by omega)
  have hsub : durSub (paceArr n) 0 = (n : Int) * 60000000 := by
    unfold durSub paceArr
    split_ifs with ha hb
    · exfalso; omega
    · exfalso; omega
    · omega
  have hprod : i64 (durSub (paceArr n) 0 * 16000) = (n : Int) * 960000000000 := by
    rw [hsub, show (n : Int) * 60000000 * 16000 = (n : Int) * 960000000000 by ring]
    exact i64_eq_self _ (by omega) (by omega)
  have hi2 : i64 (480 * (n : Int) + 480) = 480 * (n : Int) + 480 :=
    i64_eq_self _ (by omega) (by omega)
  have hdv : Int.tdiv ((n : Int) * 960000000000) 1000000000 = 960 * (n : Int) := by
    rw [tdiv_eq_ediv_of_nonneg _ _ (by omega) (by norm_num),
      show (n : Int) * 960000000000 = 960 * (n : Int) * 1000000000 by ring]
    exact Int.mul_ediv_cancel _ (by norm_num)
  have hcond : ¬ (i64 (480 * (n : Int) + 480) >
      Int.tdiv (i64 (durSub (paceArr n) 0 * 16000)) 1000000000) := by
    rw [hi2, hprod, hdv]
    omega
  rw [limitterStep_forward { send := 480 * (n : Int), firstTime := 0 } (paceArr n)
    default (by show (480 * (n : Int)) ≠ 0; omega) hcond]
  rw [hi2]
  rfl

/-- C7 amended: the pacer forwards the first packet unconditionally with
stamped timestamp 480; afterwards a packet is dropped exactly when the
next total (an int64 sum) exceeds the elapsed sample time as the code
computes it in int64 `time.Duration` arithmetic — saturating subtraction,
multiplication by 16000 that wraps once the span exceeds about 6.67 days,
truncating division — and below that overflow horizon the test is exactly
the claim's "running total plus 480 exceeds (now − start) · 16000 /
second"; each forwarded packet advances the running total by exactly 480
(mod 2^64) and is stamped with the new total truncated to 32 bits, so
stamped timestamps increase by 480 only until the total reaches 2^32,
where the stamp wraps. -/
theorem C7_thm (arrival : Nat → Int) (n : Nat)
    (hs : (limitterStateAfter arrival (n + 1)).send ≠ 0) :
    limitterOut arrival 0 = some { timestamp := 480, payload := [] } ∧
    (∀ p, limitterOut arrival (n + 1) = some p →
      (limitterStateAfter arrival (n + 2)).send =
        i64 ((limitterStateAfter arrival (n + 1)).send + 480) ∧
      p.timestamp =
        ((i64 ((limitterStateAfter arrival (n + 1)).send + 480)) % 2 ^ 32).toNat) ∧
    (limitterOut arrival (n + 1) = none ↔
      i64 ((limitterStateAfter arrival (n + 1)).send + 480) >
        Int.tdiv (i64 (durSub (arrival (n + 1))
          (limitterStateAfter arrival (n + 1)).firstTime * 16000)) 1000000000) ∧
    (0 ≤ arrival (n + 1) - (limitterStateAfter arrival (n + 1)).firstTime →
      (arrival (n + 1) - (limitterStateAfter arrival (n + 1)).firstTime) * 16000 < 2 ^ 63 →
      0 < (limitterStateAfter arrival (n + 1)).send →
      (limitterStateAfter arrival (n + 1)).send + 480 < 2 ^ 63 →
      (limitterOut arrival (n + 1) = none ↔
        (limitterStateAfter arrival (n + 1)).send + 480 >
          (arrival (n + 1) - (limitterStateAfter arrival (n + 1)).firstTime) * 16000 /
            1000000000)) := by
  refine ⟨?_, ?_, ?_, ?_⟩
  · have h0 : (limitterStateAfter arrival 0).send = 0 := rfl
    show (limitterStep (limitterStateAfter arrival 0) (arrival 0) default).2 = _
    rw [limitterStep_first _ _ _ h0, h0]
    norm_num [i64]
    exact ⟨rfl, rfl⟩
  · intro p hp
    exact (limitterStep_char (limitterStateAfter arrival (n + 1)) (arrival (n + 1))
      default hs).2 p hp
  · exact (limitterStep_char (limitterStateAfter arrival (n + 1)) (arrival (n + 1))
      default hs).1
  · intro h1 h2 h3 h4
    exact limitterStep_drop_iff (limitterStateAfter arrival (n + 1)) (arrival (n + 1))
      default h1 h2 h3 h4

/-- C7 witness: on the one-per-60-ms schedule the first packet is
forwarded stamped 480, the second is forwarded advancing the total by
exactly 480, and its drop test matches the mathematical rule (the trace
is far below the overflow horizon). -/
theorem C7_wit :
    limitterOut paceArr 0 = some { timestamp := 480, payload := [] } ∧
    (limitterStateAfter paceArr 2).send =
      i64 ((limitterStateAfter paceArr 1).send + 480) ∧
    (limitterOut paceArr 1 = none ↔
      (limitterStateAfter paceArr 1).send + 480 >
        (paceArr 1 - (limitterStateAfter paceArr 1).firstTime) * 16000 / 1000000000) :=
  ⟨(C7_thm paceArr 0 (by decide)).1,
    ((C7_thm paceArr 0 (by decide)).2.1 { timestamp := 960, payload := [] }
      (by decide)).1,
    (C7_thm paceArr 0 (by decide)).2.2.2 (by decide) (by decide) (by decide) (by decide)⟩

/-- C7 counterexample: the pacer truncates the stamped timestamp to 32
bits, so on the one-per-60-ms schedule (about 6.2 days in, still inside
the int64 elapsed-time range) forwarded packet 8947847 is stamped
4294967040 while the very next forwarded packet is stamped 224 — the
stamped timestamps are not monotonically increasing and do not increase
by 480 as plain integers at the wrap. -/
theorem C7_cex :
    limitterOut paceArr 8947847 = some { timestamp := 4294967040, payload := [] } ∧
    limitterOut paceArr 8947848 = some { timestamp := 224, payload := [] } ∧
    (224 : Nat) < 4294967040 := by
  refine ⟨?_, ?_, by norm_num⟩
  · rw [limitter_paceArr_out 8947847 (by norm_num) (by norm_num)]
    norm_num
    rfl
  · rw [limitter_paceArr_out 8947848 (by norm_num) (by norm_num)]
    norm_num
    rfl

end Homekit
